import Mathlib

/-!
Verification development for the XCCDF rule-validation engine
(`library/excel_validator.py`): a shallow embedding of the `ExcelValidator`
class — the rule-table loaders (`load_rules_from_csv`,
`load_rules_from_excel`), the report validator (`validate_xccdf_report`),
and the summary formatter (`get_validation_summary`) — together with
theorems settling the specification claims about them.

Python strings are Lean `String`s; Python exceptions are modelled by an
explicit `PyError` sum returned through `Except`; the parsed XCCDF report
is modelled as the list of its `rule-result` elements in document order.
-/

/-! ## Small Python-string helpers -/

/-- The single-quote character (codepoint 39). -/
def sqChar : Char := Char.ofNat 39

/-- A one-character string holding a single quote. -/
def sqStr : String := String.mk [sqChar]

/-- Does the string contain a single-quote character? -/
def hasSingleQuote (s : String) : Bool := s.data.contains sqChar

/-- Models Python `str.strip()`: drop leading and trailing whitespace.
(Python strips a slightly larger unicode whitespace class; the sources
only ever carry ASCII whitespace.) -/
def pyStrip (s : String) : String :=
  String.mk (((s.data.dropWhile Char.isWhitespace).reverse.dropWhile Char.isWhitespace).reverse)

/-- Models Python `str.upper()` (ASCII case mapping, which is all the
vocabulary tokens and expected-result labels use). -/
def pyUpper (s : String) : String := String.mk (s.data.map Char.toUpper)

/-- Models Python `str.lower()` (ASCII case mapping). -/
def pyLower (s : String) : String := String.mk (s.data.map Char.toLower)

/-- Reads a non-empty all-digit character list as a natural number. -/
def digitsToNat (cs : List Char) : Option Nat :=
  if cs ≠ [] ∧ cs.all Char.isDigit then
    some (cs.foldl (fun a c => a * 10 + (c.toNat - 48)) 0)
  else none

/-- Models Python `int(str)` on decimal literals: surrounding whitespace is
ignored, an optional sign precedes the digits. (Underscore digit grouping
is not modelled; the sources use plain row numbers.) -/
def pyInt? (s : String) : Option Int :=
  match (pyStrip s).data with
  | [] => none
  | c :: rest =>
    if c = Char.ofNat 45 then (digitsToNat rest).map (fun n => -(n : Int))
    else if c = Char.ofNat 43 then (digitsToNat rest).map (fun n => (n : Int))
    else (digitsToNat (c :: rest)).map (fun n => (n : Int))

/-! ## Data model -/

/-- One expected-outcome entry, as built by the loaders (a Python dict with
keys `number`, `rule_id`, `expected_result`, `description`, `profile`). -/
structure RuleRec where
  number : Int
  rule_id : String
  expected_result : String
  description : String
  profile : String
deriving DecidableEq, Repr

/-- One `rule-result` element of the parsed XCCDF report.
`result = none`: the element has no descendant `result` element;
`result = some none`: a descendant `result` element exists but its text is
Python `None`; `result = some (some t)`: the first descendant `result`
element carries text `t`. -/
structure RRNode where
  idref : String
  result : Option (Option String)
deriving DecidableEq, Repr

/-- A parsed report: its `rule-result` elements in document order. -/
abbrev XccdfDoc := List RRNode

/-- The Python exceptions the embedded code can raise. -/
inductive PyError where
  | valueError (msg : String)
  | keyError (key : String)
  | typeError
  | parseError
  | syntaxError
  | attributeError
deriving DecidableEq, Repr

/-- The XML text handed to `validate_xccdf_report`: either well-formed
(with its parse) or not (then `ET.fromstring` raises `ParseError`). -/
inductive XmlInput where
  | wellFormed (doc : XccdfDoc)
  | malformed
deriving DecidableEq, Repr

/-- One validation outcome dict, as built by `validate_xccdf_report`. -/
structure Verdict where
  number : Int
  rule_id : String
  description : String
  expected : String
  actual : String
  status : String
  message : String
deriving DecidableEq, Repr

/-! ## The result vocabulary (`ExcelValidator.RESULT_MAPPING`) -/

/-- The class attribute `RESULT_MAPPING` (source lines 17-27), in source
order. -/
def RESULT_MAPPING : List (String × String) :=
  [("pass", "COMPLIANT"),
   ("fail", "NOT COMPLIANT"),
   ("notapplicable", "NOT APPLICABLE"),
   ("notchecked", "NOT CHECKED"),
   ("notselected", "NOT SELECTED"),
   ("informational", "INFORMATIONAL"),
   ("error", "ERROR"),
   ("unknown", "UNKNOWN"),
   ("fixed", "FIXED")]

/-- Models Python `dict.get(k, default)` on a string-keyed dict given as an
association list (the sources build the dict from a literal with distinct
keys, so first-match lookup agrees with the dict). -/
def dictGet (m : List (String × String)) (k : String) (default : String) : String :=
  match m with
  | [] => default
  | (a, b) :: rest => if k = a then b else dictGet rest k default

/-- Source lines 180-181: `xccdf_result = result_elem.text.lower();`
`actual_result = RESULT_MAPPING.get(xccdf_result, xccdf_result.upper())`. -/
def classifyResult (txt : String) : String :=
  dictGet RESULT_MAPPING (pyLower txt) (pyUpper (pyLower txt))

/-! ## The element search (source line 160) -/

/-- Models `root.find(f".//{{*}}rule-result[@idref={rule_id}]")` (the
rule_id is spliced between single quotes in the source f-string).
ElementTree's ElementPath tokenizes the quoted literal of the predicate as
everything up to the next single quote, so a `rule_id` containing a single
quote terminates the literal early and the remaining characters do not form
the one supported predicate shape: the find raises
`SyntaxError("invalid predicate")`.  The model maps every quote-bearing
`rule_id` to that error (exact for every `rule_id` the development
evaluates; a `rule_id` that carries both a quote and bracket characters
re-forming a complete second predicate is not distinguished).  A quote-free
`rule_id` is matched exactly (case-sensitively) against the `idref`
attributes in document order, `find` returning the first hit. -/
def findRuleResult (doc : XccdfDoc) (rid : String) : Except PyError (Option RRNode) :=
  if hasSingleQuote rid then .error .syntaxError
  else .ok (doc.find? (fun n => n.idref == rid))

/-! ## The validator (source lines 134-206) -/

/-- Source lines 183-201: build the verdict dict for a found rule, comparing
the computed actual result against the expected one. -/
def mkCompared (r : RuleRec) (actualResult : String) : Verdict :=
  if actualResult == r.expected_result then
    ⟨r.number, r.rule_id, r.description, r.expected_result, actualResult,
     "PASS", "✓ Match"⟩
  else
    ⟨r.number, r.rule_id, r.description, r.expected_result, actualResult,
     "FAIL", "✗ Mismatch: Expected " ++ r.expected_result ++ ", Got " ++ actualResult⟩

/-- The body of the per-rule loop (source lines 155-203) for one rule:
search the report, classify, and build the verdict dict, or raise. -/
def processRule (doc : XccdfDoc) (r : RuleRec) : Except PyError Verdict :=
  match findRuleResult doc r.rule_id with
  | .error e => .error e
  | .ok none =>
    .ok ⟨r.number, r.rule_id, r.description, r.expected_result,
         "NOT FOUND", "FAIL", "Rule not found in XCCDF report"⟩
  | .ok (some node) =>
    match node.result with
    | none => .ok (mkCompared r "UNKNOWN")
    | some none => .error .attributeError
    | some (some txt) => .ok (mkCompared r (classifyResult txt))

/-- The per-rule loop of `validate_xccdf_report` (source lines 150-203),
accumulating the passed/failed counters and the ordered verdict list. -/
def validateLoop (doc : XccdfDoc) : List RuleRec → Except PyError (Nat × Nat × List Verdict)
  | [] => .ok (0, 0, [])
  | r :: rs =>
    match processRule doc r with
    | .error e => .error e
    | .ok v =>
      match validateLoop doc rs with
      | .error e => .error e
      | .ok (p, f, vs) =>
        if v.status == "PASS" then .ok (p + 1, f, v :: vs)
        else .ok (p, f + 1, v :: vs)

/-- The method `validate_xccdf_report` (source lines 134-206): reject an empty rule
list, parse the XML, then run the per-rule loop.  Returns the
`(passed, failed, results)` triple. -/
def validate_xccdf_report (rules : List RuleRec) (xml : XmlInput) :
    Except PyError (Nat × Nat × List Verdict) :=
  if rules.isEmpty then
    .error (.valueError "No rules loaded. Call load_rules_from_csv() or load_rules_from_excel() first.")
  else
    match xml with
    | .malformed => .error .parseError
    | .wellFormed doc => validateLoop doc rules

/-! ## The CSV loader (source lines 35-73) -/

/-- Models one `csv.DictReader` row lookup `row[col]`: the outer `none` is a
missing column (Python `KeyError`); `some none` is a present column whose
cell was filled with the reader's `restval` `None` because the data row is
shorter than the header; `some (some v)` is a present cell.  (DictReader
keeps the last duplicate header column; the sources have distinct headers,
so first-match lookup agrees.) -/
def rowLookup : List String → List String → String → Option (Option String)
  | [], _, _ => none
  | h :: hs, vals, col =>
    if h = col then some vals.head?
    else rowLookup hs vals.tail col

/-- Models `row.get(col, ...).strip()` on a DictReader row (source lines
63-64): a column absent from the header makes `row.get` return the default
empty string, which strips to the empty string; a present column whose
cell is the reader restval `None` makes `row.get` return `None`, and
`None.strip()` raises AttributeError; a present cell is stripped. -/
def rowGetStrip (header row : List String) (col : String) : Except PyError String :=
  match rowLookup header row col with
  | none => .ok (pyStrip "")
  | some none => .error .attributeError
  | some (some v) => .ok (pyStrip v)

/-- Source lines 59-65: build the rule dict for one CSV row.  Evaluation
order follows the dict literal: NUMBER (KeyError on a missing column, int
ValueError on a non-integer cell, TypeError on a `None` cell), then
RULE_ID, then EXPECTED_RESULT (KeyError on a missing column,
AttributeError stripping a `None` cell), then DESCRIPTION, then PROFILE
(absent columns default to the empty string via `row.get`, but a present
column whose cell is the restval `None` raises AttributeError from
`None.strip()`, exactly as for RULE_ID). -/
def csvRowToRule (header row : List String) : Except PyError RuleRec :=
  match rowLookup header row "NUMBER" with
  | none => .error (.keyError "NUMBER")
  | some none => .error .typeError
  | some (some numRaw) =>
    match pyInt? numRaw with
    | none => .error (.valueError ("invalid literal for int() with base 10: " ++ numRaw))
    | some number =>
      match rowLookup header row "RULE_ID" with
      | none => .error (.keyError "RULE_ID")
      | some none => .error .attributeError
      | some (some ridRaw) =>
        match rowLookup header row "EXPECTED_RESULT" with
        | none => .error (.keyError "EXPECTED_RESULT")
        | some none => .error .attributeError
        | some (some expRaw) =>
          match rowGetStrip header row "DESCRIPTION" with
          | .error e => .error e
          | .ok desc =>
            match rowGetStrip header row "PROFILE" with
            | .error e => .error e
            | .ok prof =>
              .ok ⟨number, pyStrip ridRaw, pyUpper (pyStrip expRaw), desc, prof⟩

/-- Source lines 68 and 126: keep the rule when no profile filter is given,
or when its (stripped) profile equals the filter case-insensitively. -/
def keepRule (profileFilter : Option String) (r : RuleRec) : Bool :=
  match profileFilter with
  | none => true
  | some f => pyUpper r.profile == pyUpper f

/-- The row loop of `load_rules_from_csv` (source lines 58-69): each row is
parsed (errors abort the whole load), then appended when the profile filter
keeps it. -/
def loadCsvGo (header : List String) (profileFilter : Option String) :
    List (List String) → Except PyError (List RuleRec)
  | [] => .ok []
  | row :: rest =>
    match csvRowToRule header row with
    | .error e => .error e
    | .ok r =>
      match loadCsvGo header profileFilter rest with
      | .error e => .error e
      | .ok rs => .ok (if keepRule profileFilter r then r :: rs else rs)

/-- The method `load_rules_from_csv` (source lines 35-73), over the already-tokenized
CSV content: the header row and the data rows.  (File existence and CSV
tokenization are outside the model.)  On an exception no rule list is
produced — matching the source, where the exception propagates before
`self.rules` is assigned. -/
def load_rules_from_csv (header : List String) (rows : List (List String))
    (profileFilter : Option String) : Except PyError (List RuleRec) :=
  loadCsvGo header profileFilter rows

/-! ## The Excel loader (source lines 75-132) -/

/-- One spreadsheet cell as `iter_rows(values_only=True)` yields it:
an empty cell (`None`), a string, or an integer. -/
inductive Cell where
  | blank
  | str (s : String)
  | int (n : Int)
deriving DecidableEq, Repr

/-- Models Python `str(cell)` on a cell value; note `str(None) = "None"`. -/
def cellStr : Cell → String
  | .blank => "None"
  | .str s => s
  | .int n => toString n

/-- Python truthiness of a cell value: `None`, `""` and `0` are falsy. -/
def cellFalsy : Cell → Bool
  | .blank => true
  | .str s => s == ""
  | .int n => n == 0

/-- Source line 113: `if not row[0]: continue` — a row whose first cell is
falsy is skipped.  (`iter_rows` pads every row to the sheet width, so an
empty tuple cannot occur; the model skips it.) -/
def excelRowSkipped (row : List Cell) : Bool :=
  match row.head? with
  | none => true
  | some c => cellFalsy c

/-- Models Python `int(cell)` on a cell value. -/
def pyIntOfCell : Cell → Except PyError Int
  | .blank => .error .typeError
  | .int n => .ok n
  | .str s =>
    match pyInt? s with
    | none => .error (.valueError ("invalid literal for int() with base 10: " ++ s))
    | some n => .ok n

/-- Models `dict(zip(headers, row))[col]` used by the Excel loader: `zip`
truncates at the shorter list, so a missing pair is a `KeyError` (`none`).
(Header cells can be `None`; `dict` keeps the last duplicate key while the
model keeps the first — the sources have distinct headers.) -/
def excelLookup : List (Option String) → List Cell → String → Option Cell
  | [], _, _ => none
  | _, [], _ => none
  | h :: hs, c :: cs, col =>
    if h = some col then some c else excelLookup hs cs col

/-- Source lines 116-123: build the rule dict for one spreadsheet row, in
dict-literal evaluation order. -/
def excelRowToRule (headers : List (Option String)) (row : List Cell) :
    Except PyError RuleRec :=
  match excelLookup headers row "NUMBER" with
  | none => .error (.keyError "NUMBER")
  | some numCell =>
    match pyIntOfCell numCell with
    | .error e => .error e
    | .ok number =>
      match excelLookup headers row "RULE_ID" with
      | none => .error (.keyError "RULE_ID")
      | some ridCell =>
        match excelLookup headers row "EXPECTED_RESULT" with
        | none => .error (.keyError "EXPECTED_RESULT")
        | some expCell =>
          .ok ⟨number, pyStrip (cellStr ridCell), pyUpper (pyStrip (cellStr expCell)),
               pyStrip (cellStr ((excelLookup headers row "DESCRIPTION").getD (.str ""))),
               pyStrip (cellStr ((excelLookup headers row "PROFILE").getD (.str "")))⟩

/-- The row loop of `load_rules_from_excel` (source lines 112-127): skip
rows with a falsy first cell, parse the rest, filter by profile. -/
def loadExcelGo (headers : List (Option String)) (profileFilter : Option String) :
    List (List Cell) → Except PyError (List RuleRec)
  | [] => .ok []
  | row :: rest =>
    if excelRowSkipped row then loadExcelGo headers profileFilter rest
    else
      match excelRowToRule headers row with
      | .error e => .error e
      | .ok r =>
        match loadExcelGo headers profileFilter rest with
        | .error e => .error e
        | .ok rs => .ok (if keepRule profileFilter r then r :: rs else rs)

/-- The method `load_rules_from_excel` (source lines 75-132), over the sheets first
(header) row and its data rows.  Source lines 106-109 check the three
required headers in order and raise `ValueError` at the first missing one,
before any data row is read. -/
def load_rules_from_excel (headers : List (Option String)) (rows : List (List Cell))
    (profileFilter : Option String) : Except PyError (List RuleRec) :=
  if (some "NUMBER") ∈ headers then
    if (some "RULE_ID") ∈ headers then
      if (some "EXPECTED_RESULT") ∈ headers then
        loadExcelGo headers profileFilter rows
      else .error (.valueError "Missing required header: EXPECTED_RESULT")
    else .error (.valueError "Missing required header: RULE_ID")
  else .error (.valueError "Missing required header: NUMBER")

/-! ## The summary formatter (source lines 208-246) -/

/-- The 80-column banner line of equals signs (source line 222). -/
def eqLine : String := String.mk (List.replicate 80 (Char.ofNat 61))

/-- A run of n dash characters (source line 233). -/
def dashes (n : Nat) : String := String.mk (List.replicate n (Char.ofNat 45))

/-- Python `f"{s:<w}"`: left-justify `s` in a field of width `w`. -/
def padTo (s : String) (w : Nat) : String :=
  s ++ String.mk (List.replicate (w - s.data.length) (Char.ofNat 32))

/-- The `Success Rate` figure `passed/total*100` to one decimal place.
The proof argument records that the source only ever evaluates the
division under the non-empty guard of `get_validation_summary` (the claimed
divide-by-zero protection).  Exact IEEE-float rounding of `:.1f` is not
modelled; the figure is rendered from `(passed*1000 + total/2)/total`
tenths of a percent. -/
def successRate1dp (passed total : Nat) (_h : 0 < total) : String :=
  let tenths := (passed * 1000 + total / 2) / total
  toString (tenths / 10) ++ "." ++ toString (tenths % 10)

/-- Source line 242: one detail line of the summary table.  The description
is truncated to 30 characters (line 240). -/
def summaryRow (r : Verdict) : String :=
  padTo (toString r.number) 4 ++ " | " ++ padTo r.status 6 ++ " | " ++
  padTo r.expected 15 ++ " | " ++ padTo r.actual 15 ++ " | " ++
  padTo (String.mk (r.description.data.take 30)) 30 ++ "\n"

/-- The `summary += ...` loop over the verdicts (source lines 235-242). -/
def summaryRows (vs : List Verdict) : String :=
  vs.foldl (fun acc r => acc ++ summaryRow r) ""

/-- The non-empty branch of `get_validation_summary` (source lines
218-246): the banner, counts, success rate and the per-verdict table.
`total` is `vs.length` and `passed` is the PASS count of line 219; the
positivity proof threads the guard of line 215 down to the division. -/
def validationSummaryBody (vs : List Verdict) (hpos : 0 < vs.length) : String :=
  "\n" ++
  (eqLine ++ "\n" ++ "VALIDATION SUMMARY\n" ++ eqLine ++ "\n" ++
   "Total Rules: " ++ toString vs.length ++ "\n" ++
   "Passed: " ++ toString (vs.filter (fun r => r.status == "PASS")).length ++ " ✓\n" ++
   "Failed: " ++ toString (vs.length - (vs.filter (fun r => r.status == "PASS")).length) ++ " ✗\n" ++
   "Success Rate: " ++
     successRate1dp (vs.filter (fun r => r.status == "PASS")).length vs.length hpos ++ "%\n" ++
   eqLine ++ "\n\n" ++
   padTo "#" 4 ++ " | " ++ padTo "STATUS" 6 ++ " | " ++ padTo "EXPECTED" 15 ++
     " | " ++ padTo "ACTUAL" 15 ++ " | " ++ padTo "DESCRIPTION" 30 ++ "\n" ++
   dashes 4 ++ "-+-" ++ dashes 6 ++ "-+-" ++ dashes 15 ++ "-+-" ++ dashes 15 ++
     "-+-" ++ dashes 30 ++ "\n" ++
   summaryRows vs ++
   eqLine ++ "\n")

/-- The method `get_validation_summary` (source lines 208-246): the zero-verdict state
returns the fixed no-results message (lines 215-216); otherwise the banner,
counts, success rate and the per-verdict table are rendered, the division
of line 228 being evaluated only under the non-empty guard. -/
def get_validation_summary (vs : List Verdict) : String :=
  if h : vs.isEmpty then "No validation results available"
  else
    validationSummaryBody vs
      (by cases vs with
          | nil => exact absurd rfl h
          | cons a l => exact Nat.succ_pos l.length)

/-! ## Projections used to state order/copy properties -/

/-- The fields a verdict copies from its source rule. -/
def verdictKey (v : Verdict) : Int × String × String × String :=
  (v.number, v.rule_id, v.description, v.expected)

/-- The corresponding fields of a rule record. -/
def ruleKey (r : RuleRec) : Int × String × String × String :=
  (r.number, r.rule_id, r.description, r.expected_result)

/-- Is the call an exception? -/
def isError {α : Type} : Except PyError α → Bool
  | .error _ => true
  | .ok _ => false

/-- Modelled from the spec: the vocabulary table of §4.2 / claim C4,
written out token by token as the specification states it, to be compared
with the source's `RESULT_MAPPING` lookup. -/
def specResultLabel (t : String) : Option String :=
  if t = "pass" then some "COMPLIANT"
  else if t = "fail" then some "NOT COMPLIANT"
  else if t = "notapplicable" then some "NOT APPLICABLE"
  else if t = "notchecked" then some "NOT CHECKED"
  else if t = "notselected" then some "NOT SELECTED"
  else if t = "informational" then some "INFORMATIONAL"
  else if t = "error" then some "ERROR"
  else if t = "unknown" then some "UNKNOWN"
  else if t = "fixed" then some "FIXED"
  else none

/-! ## Concrete inputs used by counterexamples and witnesses -/

/-- A rule whose expected result is the sentinel string itself. -/
def c1Rule : RuleRec := ⟨1, "r1", "NOT FOUND", "", ""⟩

/-- The verdict the validator produces for `c1Rule` against an empty report. -/
def c1Verdict : Verdict :=
  ⟨1, "r1", "", "NOT FOUND", "NOT FOUND", "FAIL", "Rule not found in XCCDF report"⟩

/-- A matching rule/report pair used to witness the amended C1. -/
def c1wRule : RuleRec := ⟨1, "r1", "COMPLIANT", "", ""⟩

/-- The report node matched by `c1wRule`. -/
def c1wNode : RRNode := ⟨"r1", some (some "pass")⟩

/-- The verdict for `c1wRule` against `[c1wNode]`. -/
def c1wVerdict : Verdict := ⟨1, "r1", "", "COMPLIANT", "COMPLIANT", "PASS", "✓ Match"⟩

/-- A rule whose identifier carries a single quote. -/
def c2Rule : RuleRec := ⟨1, "bad" ++ sqStr ++ "id", "COMPLIANT", "", ""⟩

/-- A quote-free rule matching nothing, used to witness the amended C2. -/
def c2wRule : RuleRec := ⟨7, "missing_rule", "COMPLIANT", "", ""⟩

/-- The verdict for `c2wRule` against an empty report. -/
def c2wVerdict : Verdict :=
  ⟨7, "missing_rule", "", "COMPLIANT", "NOT FOUND", "FAIL", "Rule not found in XCCDF report"⟩

/-- A rule matched by a node whose result element carries no text. -/
def c3Rule : RuleRec := ⟨1, "r1", "UNKNOWN", "", ""⟩

/-- A node with a textless result element. -/
def c3Node : RRNode := ⟨"r1", some none⟩

/-- A rule matched by a node with no result element at all. -/
def c3wRule : RuleRec := ⟨1, "r1", "COMPLIANT", "", ""⟩

/-- A node with no result element. -/
def c3wNode : RRNode := ⟨"r1", none⟩

/-- The verdict for `c3wRule` against `[c3wNode]`. -/
def c3wVerdict : Verdict :=
  ⟨1, "r1", "", "COMPLIANT", "UNKNOWN", "FAIL", "✗ Mismatch: Expected COMPLIANT, Got UNKNOWN"⟩

/-- A second textless-result node for the raising half of the amended C3. -/
def c3wNode2 : RRNode := ⟨"rX", some none⟩

/-- The rule matching `c3wNode2`. -/
def c3wRule2 : RuleRec := ⟨2, "rX", "ERROR", "", ""⟩

/-- A two-rule list (one matched, one absent) for the C5 witness. -/
def c5wRules : List RuleRec := [⟨1, "r1", "COMPLIANT", "d1", "p1"⟩, ⟨2, "r2", "FIXED", "", ""⟩]

/-- The report for the C5 witness: only `r1` is present. -/
def c5wDoc : XccdfDoc := [⟨"r1", some (some "pass")⟩]

/-- The verdicts `validate_xccdf_report` produces for `c5wRules`/`c5wDoc`. -/
def c5wVerdicts : List Verdict :=
  [⟨1, "r1", "d1", "COMPLIANT", "COMPLIANT", "PASS", "✓ Match"⟩,
   ⟨2, "r2", "", "FIXED", "NOT FOUND", "FAIL", "Rule not found in XCCDF report"⟩]

/-- A full CSV header for the C8 witness. -/
def c8wHeader : List String := ["NUMBER", "RULE_ID", "EXPECTED_RESULT", "PROFILE"]

/-- Two CSV rows with distinct profiles. -/
def c8wRows : List (List String) := [["1", "r1", "pass", "Cat1"], ["2", "r2", "fail", "CAT2"]]

/-- The unfiltered load of `c8wRows`. -/
def c8wLoadedAll : List RuleRec :=
  [⟨1, "r1", "PASS", "", "Cat1"⟩, ⟨2, "r2", "FAIL", "", "CAT2"⟩]

/-- A spreadsheet header for the C8 witness. -/
def c8wHeadersX : List (Option String) :=
  [some "NUMBER", some "RULE_ID", some "EXPECTED_RESULT", some "PROFILE"]

/-- Spreadsheet rows including one blank-first-cell (skipped) row. -/
def c8wRowsX : List (List Cell) :=
  [[.int 1, .str "r1", .str "pass", .str "Cat1"],
   [.blank, .str "skip", .str "x", .str "y"],
   [.int 2, .str "r2", .str "fail", .str "CAT2"]]

/-- The unfiltered load of `c8wRowsX`. -/
def c8wLoadedX : List RuleRec :=
  [⟨1, "r1", "PASS", "", "Cat1"⟩, ⟨2, "r2", "FAIL", "", "CAT2"⟩]

/-- One PASS verdict for the C9 witness. -/
def c9wVerdict : Verdict := ⟨1, "r1", "", "COMPLIANT", "COMPLIANT", "PASS", "✓ Match"⟩

/-- A rule identifier carrying a single quote (codepoint 39). -/
def c10RuleId : String := "xccdf_rule_O" ++ sqStr ++ "Brien"

/-! ## Shared lemmas -/

theorem str_data_append (a b : String) : (a ++ b).data = a.data ++ b.data := by
  rcases a with ⟨da⟩; rcases b with ⟨db⟩; rfl

theorem charToNatOfNatValid {n : Nat} (h : n.isValidChar) : (Char.ofNat n).toNat = n := by
  rw [Char.ofNat, dif_pos h]; rfl

theorem toUpper_toLower_eq (c : Char) : (Char.toLower c).toUpper = Char.toUpper c := by
  unfold Char.toLower Char.toUpper
  by_cases h : c.toNat ≥ 65 ∧ c.toNat ≤ 90
  · have hval : (c.toNat + 32).isValidChar := Or.inl (by omega)
    rw [if_pos h, charToNatOfNatValid hval]
    rw [if_pos (by omega : c.toNat + 32 ≥ 97 ∧ c.toNat + 32 ≤ 122)]
    rw [if_neg (by omega : ¬ (c.toNat ≥ 97 ∧ c.toNat ≤ 122))]
    have h2 : c.toNat + 32 - 32 = c.toNat := by omega
    rw [h2, Char.ofNat_toNat]
  · rw [if_neg h]

theorem pyUpper_pyLower (s : String) : pyUpper (pyLower s) = pyUpper s := by
  unfold pyUpper pyLower
  rw [show (String.mk (s.data.map Char.toLower)).data = s.data.map Char.toLower from rfl]
  rw [List.map_map]
  rw [show Char.toUpper ∘ Char.toLower = Char.toUpper from funext toUpper_toLower_eq]

theorem dictGet_result_mapping (k d : String) :
    dictGet RESULT_MAPPING k d = (specResultLabel k).getD d := by
  unfold RESULT_MAPPING specResultLabel
  simp only [dictGet]
  split_ifs <;> rfl

theorem mkCompared_actual (r : RuleRec) (a : String) : (mkCompared r a).actual = a := by
  unfold mkCompared; split <;> rfl

theorem mkCompared_status_iff (r : RuleRec) (a : String) :
    ((mkCompared r a).status = "PASS") ↔ a = r.expected_result := by
  unfold mkCompared
  by_cases h : a = r.expected_result
  · simp [h]
  · simp [h]

theorem mkCompared_key (r : RuleRec) (a : String) :
    verdictKey (mkCompared r a) = ruleKey r := by
  unfold verdictKey ruleKey mkCompared; split <;> rfl

theorem processRule_ok_key {doc : XccdfDoc} {r : RuleRec} {v : Verdict}
    (h : processRule doc r = .ok v) : verdictKey v = ruleKey r := by
  unfold processRule at h
  rcases hf : findRuleResult doc r.rule_id with e | o <;> rw [hf] at h
  · cases h
  · rcases o with _ | node
    · injection h with h2; subst h2; rfl
    · rcases node with ⟨idref, res⟩
      rcases res with _ | ores
      · injection h with h2; subst h2; exact mkCompared_key r "UNKNOWN"
      · rcases ores with _ | txt
        · cases h
        · injection h with h2; subst h2; exact mkCompared_key r (classifyResult txt)

theorem processRule_of_find_none {doc : XccdfDoc} {r : RuleRec}
    (h : findRuleResult doc r.rule_id = .ok none) :
    processRule doc r = .ok ⟨r.number, r.rule_id, r.description, r.expected_result,
      "NOT FOUND", "FAIL", "Rule not found in XCCDF report"⟩ := by
  unfold processRule; rw [h]

theorem processRule_of_find_noResultElem {doc : XccdfDoc} {r : RuleRec} {node : RRNode}
    (h : findRuleResult doc r.rule_id = .ok (some node)) (h2 : node.result = none) :
    processRule doc r = .ok (mkCompared r "UNKNOWN") := by
  rcases node with ⟨idref, res⟩
  obtain rfl : res = none := h2
  unfold processRule
  rw [h]

theorem processRule_of_find_textlessResult {doc : XccdfDoc} {r : RuleRec} {node : RRNode}
    (h : findRuleResult doc r.rule_id = .ok (some node)) (h2 : node.result = some none) :
    processRule doc r = .error .attributeError := by
  rcases node with ⟨idref, res⟩
  obtain rfl : res = some none := h2
  unfold processRule
  rw [h]

theorem processRule_of_find_text {doc : XccdfDoc} {r : RuleRec} {node : RRNode} {txt : String}
    (h : findRuleResult doc r.rule_id = .ok (some node)) (h2 : node.result = some (some txt)) :
    processRule doc r = .ok (mkCompared r (classifyResult txt)) := by
  rcases node with ⟨idref, res⟩
  obtain rfl : res = some (some txt) := h2
  unfold processRule
  rw [h]

theorem validateLoop_ok_spec {doc : XccdfDoc} : ∀ {rules : List RuleRec}
    {p f : Nat} {vs : List Verdict}, validateLoop doc rules = .ok (p, f, vs) →
    p + f = rules.length ∧ vs.length = rules.length ∧
    ∀ i (hi : i < rules.length) (hv : i < vs.length),
      processRule doc (rules.get ⟨i, hi⟩) = .ok (vs.get ⟨i, hv⟩) := by
  intro rules
  induction rules with
  | nil =>
    intro p f vs h
    simp only [validateLoop, Except.ok.injEq, Prod.mk.injEq] at h
    obtain ⟨hp, hf, hvs⟩ := h
    subst hp; subst hf; subst hvs
    exact ⟨rfl, rfl, fun i hi _ => absurd hi (Nat.not_lt_zero i)⟩
  | cons r rs ih =>
    intro p f vs h
    simp only [validateLoop] at h
    split at h
    · cases h
    · rename_i v hpr
      split at h
      · cases h
      · rename_i p' f' vs' hloop
        obtain ⟨ihsum, ihlen, ihidx⟩ := ih hloop
        split at h <;>
          simp only [Except.ok.injEq, Prod.mk.injEq] at h <;>
          obtain ⟨hp1, hf1, hvs1⟩ := h <;> subst hp1 <;> subst hf1 <;> subst hvs1 <;>
          refine ⟨by simp only [List.length_cons]; omega,
                  by simp only [List.length_cons, ihlen], fun i hi hv => ?_⟩ <;>
          cases i with
          | zero => simpa using hpr
          | succ j =>
            exact ihidx j (by simpa using hi) (by simpa using hv)

theorem validateLoop_ok_map {doc : XccdfDoc} : ∀ {rules : List RuleRec}
    {p f : Nat} {vs : List Verdict}, validateLoop doc rules = .ok (p, f, vs) →
    vs.map verdictKey = rules.map ruleKey := by
  intro rules
  induction rules with
  | nil =>
    intro p f vs h
    simp only [validateLoop, Except.ok.injEq, Prod.mk.injEq] at h
    rw [← h.2.2]
    rfl
  | cons r rs ih =>
    intro p f vs h
    simp only [validateLoop] at h
    split at h
    · cases h
    · rename_i v hpr
      split at h
      · cases h
      · rename_i p' f' vs' hloop
        split at h <;>
          simp only [Except.ok.injEq, Prod.mk.injEq] at h <;>
          rw [← h.2.2] <;>
          simp only [List.map_cons] <;>
          rw [processRule_ok_key hpr, ih hloop]

theorem rowLookup_eq_none {header : List String} {col : String} (h : col ∉ header) :
    ∀ row, rowLookup header row col = none := by
  induction header with
  | nil => intro row; rfl
  | cons a hs ih =>
    intro row
    rw [List.mem_cons] at h
    push_neg at h
    unfold rowLookup
    rw [if_neg (fun e => h.1 e.symm), ih h.2]

theorem csvRowToRule_missing_isError {header row : List String}
    (h : "NUMBER" ∉ header ∨ "RULE_ID" ∉ header ∨ "EXPECTED_RESULT" ∉ header) :
    isError (csvRowToRule header row) = true := by
  unfold csvRowToRule
  split
  · rfl
  · rfl
  · rename_i numRaw hnum
    split
    · rfl
    · rename_i n hn
      split
      · rfl
      · rfl
      · rename_i ridRaw hrid
        split
        · rfl
        · rfl
        · rename_i expRaw hexp
          exfalso
          rcases h with h | h | h
          · rw [rowLookup_eq_none h] at hnum; cases hnum
          · rw [rowLookup_eq_none h] at hrid; cases hrid
          · rw [rowLookup_eq_none h] at hexp; cases hexp

theorem loadCsvGo_cons_error {header : List String} {profileFilter : Option String}
    {row : List String} {rest : List (List String)}
    (h : isError (csvRowToRule header row) = true) :
    isError (loadCsvGo header profileFilter (row :: rest)) = true := by
  unfold loadCsvGo
  rcases hr : csvRowToRule header row with e | r
  · rfl
  · rw [hr] at h
    simp [isError] at h

theorem loadCsvGo_filter (header : List String) (f : String) :
    ∀ rows, loadCsvGo header (some f) rows =
      (loadCsvGo header none rows).map
        (List.filter (fun r => pyUpper r.profile == pyUpper f)) := by
  intro rows
  induction rows with
  | nil => rfl
  | cons row rest ih =>
    unfold loadCsvGo
    rcases hr : csvRowToRule header row with e | r
    · rfl
    · rw [ih]
      rcases hg : loadCsvGo header none rest with e | rs
      · rfl
      · simp [Except.map, keepRule, List.filter_cons]

theorem loadCsvGo_none_length (header : List String) :
    ∀ rows rs, loadCsvGo header none rows = .ok rs → rs.length = rows.length := by
  intro rows
  induction rows with
  | nil =>
    intro rs h
    simp only [loadCsvGo, Except.ok.injEq] at h
    rw [← h]; rfl
  | cons row rest ih =>
    intro rs h
    simp only [loadCsvGo] at h
    split at h
    · cases h
    · rename_i r hr
      split at h
      · cases h
      · rename_i rs' hg
        simp only [keepRule, if_true, Except.ok.injEq] at h
        rw [← h]
        simp only [List.length_cons, ih rs' hg]

theorem loadExcelGo_filter (headers : List (Option String)) (f : String) :
    ∀ rows, loadExcelGo headers (some f) rows =
      (loadExcelGo headers none rows).map
        (List.filter (fun r => pyUpper r.profile == pyUpper f)) := by
  intro rows
  induction rows with
  | nil => rfl
  | cons row rest ih =>
    unfold loadExcelGo
    by_cases hs : excelRowSkipped row = true
    · rw [if_pos hs, if_pos hs, ih]
    · rw [if_neg hs, if_neg hs]
      rcases hr : excelRowToRule headers row with e | r
      · rfl
      · rw [ih]
        rcases hg : loadExcelGo headers none rest with e | rs
        · rfl
        · simp [Except.map, keepRule, List.filter_cons]

theorem loadExcelGo_none_length (headers : List (Option String)) :
    ∀ rows rs, loadExcelGo headers none rows = .ok rs →
      rs.length = (rows.filter (fun row => ! excelRowSkipped row)).length := by
  intro rows
  induction rows with
  | nil =>
    intro rs h
    simp only [loadExcelGo, Except.ok.injEq] at h
    rw [← h]; rfl
  | cons row rest ih =>
    intro rs h
    simp only [loadExcelGo] at h
    by_cases hs : excelRowSkipped row = true
    · rw [if_pos hs] at h
      rw [List.filter_cons, if_neg (by simp [hs])]
      exact ih rs h
    · rw [if_neg hs] at h
      rw [List.filter_cons, if_pos (by simp [Bool.eq_false_iff.mpr hs])]
      split at h
      · cases h
      · rename_i r hr
        split at h
        · cases h
        · rename_i rs' hg
          simp only [keepRule, if_true, Except.ok.injEq] at h
          rw [← h]
          simp only [List.length_cons, ih rs' hg]

theorem validationSummaryBody_ne_msg (vs : List Verdict) (hpos : 0 < vs.length) :
    validationSummaryBody vs hpos ≠ "No validation results available" := by
  intro heq
  unfold validationSummaryBody at heq
  have h2 := congrArg String.data heq
  rw [str_data_append] at h2
  have h3 := congrArg List.head? h2
  rw [show (("\n" : String)).data = [Char.ofNat 10] from rfl] at h3
  rw [List.singleton_append, List.head?_cons] at h3
  rw [show ("No validation results available").data.head? = some (Char.ofNat 78) from rfl] at h3
  exact absurd h3 (by decide)

/-! ## Claim theorems -/

/-- C1, counterexample: the claim "status is PASS if and only if actual
equals expected" fails on the code.  For the rule `⟨1, "r1", "NOT FOUND",
"", ""⟩` validated against an empty report, the verdict has
`actual = "NOT FOUND" = expected` yet `status = "FAIL"`: the not-found
branch of the source (lines 162-173) hard-codes FAIL without comparing. -/
theorem claim_c1_counterexample :
    validate_xccdf_report [c1Rule] (.wellFormed []) = .ok (0, 1, [c1Verdict]) ∧
    c1Verdict.actual = c1Verdict.expected ∧ c1Verdict.status ≠ "PASS" :=
  ⟨rfl, rfl, by decide⟩

/-- C1 (amended): in a validate call that returns, a verdict's status is
PASS iff its actual equals the rule's expected_result AND the element
search found a rule-result element; a rule whose search found nothing has
status FAIL even when its expected_result is the string "NOT FOUND". -/
theorem claim_c1_amended (rules : List RuleRec) (doc : XccdfDoc) (p f : Nat)
    (vs : List Verdict) (i : Nat) (hi : i < rules.length) (hv : i < vs.length)
    (hval : validate_xccdf_report rules (.wellFormed doc) = .ok (p, f, vs)) :
    (findRuleResult doc (rules.get ⟨i, hi⟩).rule_id = .ok none →
       (vs.get ⟨i, hv⟩).status = "FAIL") ∧
    (∀ node, findRuleResult doc (rules.get ⟨i, hi⟩).rule_id = .ok (some node) →
       ((vs.get ⟨i, hv⟩).status = "PASS" ↔
         (vs.get ⟨i, hv⟩).actual = (rules.get ⟨i, hi⟩).expected_result)) := by
  have hloop : validateLoop doc rules = .ok (p, f, vs) := by
    unfold validate_xccdf_report at hval
    split at hval
    · cases hval
    · exact hval
  obtain ⟨_, _, hidx⟩ := validateLoop_ok_spec hloop
  have hpr := hidx i hi hv
  constructor
  · intro hfind
    rw [processRule_of_find_none hfind] at hpr
    injection hpr with h2
    rw [← h2]
  · intro node hfind
    rcases hres : node.result with _ | ores
    · rw [processRule_of_find_noResultElem hfind hres] at hpr
      injection hpr with h2
      rw [← h2, mkCompared_actual]
      exact mkCompared_status_iff _ _
    · rcases ores with _ | txt
      · rw [processRule_of_find_textlessResult hfind hres] at hpr
        cases hpr
      · rw [processRule_of_find_text hfind hres] at hpr
        injection hpr with h2
        rw [← h2, mkCompared_actual]
        exact mkCompared_status_iff _ _

/-- C1 witness: the amended theorem applied to the concrete one-rule call
`validate [c1wRule] [c1wNode]`, whose verdict is a PASS with
`actual = expected = "COMPLIANT"`. -/
theorem claim_c1_amended_witness :
    validate_xccdf_report [c1wRule] (.wellFormed [c1wNode]) = .ok (1, 0, [c1wVerdict]) ∧
    (([c1wVerdict].get ⟨0, by decide⟩).status = "PASS" ↔
      ([c1wVerdict].get ⟨0, by decide⟩).actual = ([c1wRule].get ⟨0, by decide⟩).expected_result) :=
  ⟨rfl,
   (claim_c1_amended [c1wRule] [c1wNode] 1 0 [c1wVerdict] 0 (by decide) (by decide) rfl).2
     c1wNode rfl⟩

/-- C2, counterexample: the claim "a rule_id matching no element always
yields a NOT FOUND / FAIL verdict" fails on the code: the rule
`⟨1, "bad'id", "COMPLIANT", "", ""⟩` (quote spelled as codepoint 39)
matches no element of the empty report, yet validate raises the XPath
SyntaxError instead of producing any verdict. -/
theorem claim_c2_counterexample :
    (([] : XccdfDoc).find? (fun n => n.idref == c2Rule.rule_id) = none) ∧
    validate_xccdf_report [c2Rule] (.wellFormed []) = .error .syntaxError :=
  ⟨rfl, rfl⟩

/-- C2 (amended): in a validate call that returns (in particular whenever
no rule_id contains a single quote), a rule whose rule_id matches no
rule-result element yields `actual = "NOT FOUND"`, `status = "FAIL"` and
the fixed not-found message, for every value of expected_result. -/
theorem claim_c2_amended (rules : List RuleRec) (doc : XccdfDoc) (p f : Nat)
    (vs : List Verdict) (i : Nat) (hi : i < rules.length) (hv : i < vs.length)
    (hval : validate_xccdf_report rules (.wellFormed doc) = .ok (p, f, vs))
    (hfind : doc.find? (fun n => n.idref == (rules.get ⟨i, hi⟩).rule_id) = none) :
    (vs.get ⟨i, hv⟩).actual = "NOT FOUND" ∧ (vs.get ⟨i, hv⟩).status = "FAIL" ∧
    (vs.get ⟨i, hv⟩).message = "Rule not found in XCCDF report" := by
  have hloop : validateLoop doc rules = .ok (p, f, vs) := by
    unfold validate_xccdf_report at hval
    split at hval
    · cases hval
    · exact hval
  obtain ⟨_, _, hidx⟩ := validateLoop_ok_spec hloop
  have hpr := hidx i hi hv
  have hq : hasSingleQuote (rules.get ⟨i, hi⟩).rule_id = false := by
    cases hq2 : hasSingleQuote (rules.get ⟨i, hi⟩).rule_id
    · rfl
    · exfalso
      unfold processRule findRuleResult at hpr
      rw [hq2] at hpr
      simp at hpr
  have hfr : findRuleResult doc (rules.get ⟨i, hi⟩).rule_id = .ok none := by
    unfold findRuleResult
    rw [hq, if_neg (by simp), hfind]
  rw [processRule_of_find_none hfr] at hpr
  injection hpr with h2
  rw [← h2]
  exact ⟨rfl, rfl, rfl⟩

/-- C2 witness: the amended theorem applied to the quote-free rule
`c2wRule` against the empty report. -/
theorem claim_c2_amended_witness :
    validate_xccdf_report [c2wRule] (.wellFormed []) = .ok (0, 1, [c2wVerdict]) ∧
    (([c2wVerdict].get ⟨0, by decide⟩).actual = "NOT FOUND" ∧
     ([c2wVerdict].get ⟨0, by decide⟩).status = "FAIL" ∧
     ([c2wVerdict].get ⟨0, by decide⟩).message = "Rule not found in XCCDF report") :=
  ⟨rfl, claim_c2_amended [c2wRule] [] 0 1 [c2wVerdict] 0 (by decide) (by decide) rfl rfl⟩

/-- C3, counterexample: the claim "a matched node with no usable result
text yields actual = UNKNOWN" fails on the code: against the report node
`⟨"r1", some none⟩` (a result element whose text is Python None), validate
raises AttributeError (`None.lower()`, source line 180) instead of
producing any verdict. -/
theorem claim_c3_counterexample :
    ([c3Node].find? (fun n => n.idref == c3Rule.rule_id) = some c3Node) ∧
    validate_xccdf_report [c3Rule] (.wellFormed [c3Node]) = .error .attributeError :=
  ⟨rfl, rfl⟩

/-- C3 (amended): for a matched rule-result element with no nested result
element at all, the verdict's actual is the sentinel "UNKNOWN"; but when a
nested result element exists with no text, the per-rule evaluation raises
AttributeError rather than producing a verdict. -/
theorem claim_c3_amended :
    (∀ (rules : List RuleRec) (doc : XccdfDoc) (p f : Nat) (vs : List Verdict)
       (i : Nat) (hi : i < rules.length) (hv : i < vs.length) (node : RRNode),
       validate_xccdf_report rules (.wellFormed doc) = .ok (p, f, vs) →
       findRuleResult doc (rules.get ⟨i, hi⟩).rule_id = .ok (some node) →
       node.result = none →
       (vs.get ⟨i, hv⟩).actual = "UNKNOWN") ∧
    (∀ (doc : XccdfDoc) (r : RuleRec) (node : RRNode),
       findRuleResult doc r.rule_id = .ok (some node) →
       node.result = some none →
       processRule doc r = .error .attributeError) := by
  constructor
  · intro rules doc p f vs i hi hv node hval hfind hres
    have hloop : validateLoop doc rules = .ok (p, f, vs) := by
      unfold validate_xccdf_report at hval
      split at hval
      · cases hval
      · exact hval
    obtain ⟨_, _, hidx⟩ := validateLoop_ok_spec hloop
    have hpr := hidx i hi hv
    rw [processRule_of_find_noResultElem hfind hres] at hpr
    injection hpr with h2
    rw [← h2, mkCompared_actual]
  · intro doc r node hfind hres
    exact processRule_of_find_textlessResult hfind hres

/-- C3 witness: both halves of the amended theorem applied concretely —
a node with no result element yields actual "UNKNOWN", and a node with a
textless result element makes the per-rule evaluation raise. -/
theorem claim_c3_amended_witness :
    validate_xccdf_report [c3wRule] (.wellFormed [c3wNode]) = .ok (0, 1, [c3wVerdict]) ∧
    ([c3wVerdict].get ⟨0, by decide⟩).actual = "UNKNOWN" ∧
    processRule [c3wNode2] c3wRule2 = .error .attributeError :=
  ⟨rfl,
   claim_c3_amended.1 [c3wRule] [c3wNode] 0 1 [c3wVerdict] 0 (by decide) (by decide)
     c3wNode rfl rfl rfl,
   claim_c3_amended.2 [c3wNode2] c3wRule2 c3wNode2 rfl rfl⟩

/-- C4: for every result text, the computed actual label agrees with the
specification's nine-token vocabulary table applied to the lower-cased
text, falling back to the upper-cased raw text when the lower-cased text
is not a vocabulary token (a pass-through, not an error). -/
theorem claim_c4_vocabulary (s : String) :
    classifyResult s = (specResultLabel (pyLower s)).getD (pyUpper s) := by
  unfold classifyResult
  rw [dictGet_result_mapping, pyUpper_pyLower]

/-- C5: after every successful validate call, passed + failed equals the
number of input rules, there is exactly one verdict per input rule, and
the verdicts carry the rules' number/rule_id/description/expected fields
in the input order (not the report's order). -/
theorem claim_c5_counts_order (rules : List RuleRec) (xml : XmlInput) (p f : Nat)
    (vs : List Verdict) (hval : validate_xccdf_report rules xml = .ok (p, f, vs)) :
    p + f = rules.length ∧ vs.length = rules.length ∧
    vs.map verdictKey = rules.map ruleKey := by
  cases xml with
  | malformed =>
    unfold validate_xccdf_report at hval
    split at hval
    · cases hval
    · simp at hval
  | wellFormed doc =>
    have hloop : validateLoop doc rules = .ok (p, f, vs) := by
      unfold validate_xccdf_report at hval
      split at hval
      · cases hval
      · exact hval
    obtain ⟨h1, h2, _⟩ := validateLoop_ok_spec hloop
    exact ⟨h1, h2, validateLoop_ok_map hloop⟩

/-- C5 witness: the theorem applied to the concrete two-rule call
(one rule found and passing, one absent). -/
theorem claim_c5_counts_order_witness :
    validate_xccdf_report c5wRules (.wellFormed c5wDoc) = .ok (1, 1, c5wVerdicts) ∧
    (1 + 1 = c5wRules.length ∧ c5wVerdicts.length = c5wRules.length ∧
     c5wVerdicts.map verdictKey = c5wRules.map ruleKey) :=
  ⟨rfl, claim_c5_counts_order c5wRules (.wellFormed c5wDoc) 1 1 c5wVerdicts rfl⟩

/-- C6, counterexample: the claim "every tabular source whose header lacks
a required column fails to load" fails on the code for CSV: a CSV source
whose header lacks RULE_ID but has zero data rows loads successfully,
returning the empty rule list (the CSV loader checks columns only while
processing rows, source lines 56-69). -/
theorem claim_c6_counterexample :
    ("RULE_ID" ∉ (["NUMBER", "EXPECTED_RESULT"] : List String)) ∧
    load_rules_from_csv ["NUMBER", "EXPECTED_RESULT"] [] none = .ok [] :=
  ⟨by decide, rfl⟩

/-- C6 (amended): a spreadsheet source with a missing required header
always fails before reading any row; a CSV source with a missing required
column fails at the first data row (so with at least one data row the load
always fails, and no rule list is produced), but a CSV source with zero
data rows loads successfully as the empty list. -/
theorem claim_c6_amended :
    (∀ (headers : List (Option String)) (rows : List (List Cell)) (pf : Option String),
       (some "NUMBER" ∉ headers ∨ some "RULE_ID" ∉ headers ∨
        some "EXPECTED_RESULT" ∉ headers) →
       isError (load_rules_from_excel headers rows pf) = true) ∧
    (∀ (header row : List String) (rows : List (List String)) (pf : Option String),
       ("NUMBER" ∉ header ∨ "RULE_ID" ∉ header ∨ "EXPECTED_RESULT" ∉ header) →
       isError (load_rules_from_csv header (row :: rows) pf) = true) ∧
    (∀ (header : List String) (pf : Option String),
       load_rules_from_csv header [] pf = .ok []) := by
  refine ⟨?_, ?_, ?_⟩
  · intro headers rows pf h
    unfold load_rules_from_excel
    by_cases h1 : some "NUMBER" ∈ headers
    · by_cases h2 : some "RULE_ID" ∈ headers
      · by_cases h3 : some "EXPECTED_RESULT" ∈ headers
        · rcases h with h | h | h
          exacts [absurd h1 h, absurd h2 h, absurd h3 h]
        · rw [if_pos h1, if_pos h2, if_neg h3]; rfl
      · rw [if_pos h1, if_neg h2]; rfl
    · rw [if_neg h1]; rfl
  · intro header row rows pf h
    exact loadCsvGo_cons_error (csvRowToRule_missing_isError h)
  · intro header pf
    rfl

/-- C6 witness: the amended theorem applied to concrete sources — a
spreadsheet and a one-row CSV each missing RULE_ID both fail, and a
zero-row CSV with any filter loads as the empty list. -/
theorem claim_c6_amended_witness :
    (some "RULE_ID" ∉ ([some "NUMBER", some "EXPECTED_RESULT"] : List (Option String))) ∧
    isError (load_rules_from_excel [some "NUMBER", some "EXPECTED_RESULT"]
      [[.int 1, .str "COMPLIANT"]] none) = true ∧
    ("RULE_ID" ∉ (["NUMBER", "EXPECTED_RESULT"] : List String)) ∧
    isError (load_rules_from_csv ["NUMBER", "EXPECTED_RESULT"]
      [["1", "COMPLIANT"]] none) = true ∧
    load_rules_from_csv ["NUMBER", "PROFILE"] [] (some "x") = .ok [] :=
  ⟨by decide,
   claim_c6_amended.1 [some "NUMBER", some "EXPECTED_RESULT"] [[.int 1, .str "COMPLIANT"]]
     none (Or.inr (Or.inl (by decide))),
   by decide,
   claim_c6_amended.2.1 ["NUMBER", "EXPECTED_RESULT"] ["1", "COMPLIANT"] [] none
     (Or.inr (Or.inl (by decide))),
   claim_c6_amended.2.2 ["NUMBER", "PROFILE"] (some "x")⟩

/-- C7: validating with an empty rule list fails with the no-rules
ValueError for every input document — including a malformed one, showing
the guard fires before any parsing or matching is attempted. -/
theorem claim_c7_no_rules_guard (xml : XmlInput) :
    validate_xccdf_report [] xml =
      .error (.valueError
        "No rules loaded. Call load_rules_from_csv() or load_rules_from_excel() first.") :=
  rfl

/-- C8: loading with a profile filter returns exactly the (non-skipped)
rows whose PROFILE equals the filter case-insensitively, in source order
(stated as: the filtered load is the unfiltered load post-filtered, for
both the CSV and the spreadsheet loader); with no filter the CSV loader
keeps every row and the spreadsheet loader keeps every non-skipped row. -/
theorem claim_c8_profile_filter :
    (∀ (header : List String) (rows : List (List String)) (f : String),
       load_rules_from_csv header rows (some f) =
         (load_rules_from_csv header rows none).map
           (List.filter (fun r => pyUpper r.profile == pyUpper f))) ∧
    (∀ (headers : List (Option String)) (rows : List (List Cell)) (f : String),
       load_rules_from_excel headers rows (some f) =
         (load_rules_from_excel headers rows none).map
           (List.filter (fun r => pyUpper r.profile == pyUpper f))) ∧
    (∀ (header : List String) (rows : List (List String)) (rs : List RuleRec),
       load_rules_from_csv header rows none = .ok rs → rs.length = rows.length) ∧
    (∀ (headers : List (Option String)) (rows : List (List Cell)) (rs : List RuleRec),
       load_rules_from_excel headers rows none = .ok rs →
         rs.length = (rows.filter (fun row => ! excelRowSkipped row)).length) := by
  refine ⟨?_, ?_, ?_, ?_⟩
  · intro header rows f
    exact loadCsvGo_filter header f rows
  · intro headers rows f
    unfold load_rules_from_excel
    by_cases h1 : some "NUMBER" ∈ headers
    · by_cases h2 : some "RULE_ID" ∈ headers
      · by_cases h3 : some "EXPECTED_RESULT" ∈ headers
        · simp only [if_pos h1, if_pos h2, if_pos h3]
          exact loadExcelGo_filter headers f rows
        · simp only [if_pos h1, if_pos h2, if_neg h3]; rfl
      · simp only [if_pos h1, if_neg h2]; rfl
    · simp only [if_neg h1]; rfl
  · intro header rows rs h
    exact loadCsvGo_none_length header rows rs h
  · intro headers rows rs h
    unfold load_rules_from_excel at h
    split at h
    · split at h
      · split at h
        · exact loadExcelGo_none_length headers rows rs h
        · cases h
      · cases h
    · cases h

/-- C8 witness: the theorem applied to concrete sources: a two-row CSV
filtered by "cat1" (matching "Cat1" case-insensitively), the full
unfiltered CSV load, and an unfiltered spreadsheet load with one skipped
blank row. -/
theorem claim_c8_profile_filter_witness :
    (load_rules_from_csv c8wHeader c8wRows (some "cat1") =
      (load_rules_from_csv c8wHeader c8wRows none).map
        (List.filter (fun r => pyUpper r.profile == pyUpper "cat1"))) ∧
    load_rules_from_csv c8wHeader c8wRows none = .ok c8wLoadedAll ∧
    c8wLoadedAll.length = c8wRows.length ∧
    load_rules_from_excel c8wHeadersX c8wRowsX none = .ok c8wLoadedX ∧
    c8wLoadedX.length = (c8wRowsX.filter (fun row => ! excelRowSkipped row)).length :=
  ⟨claim_c8_profile_filter.1 c8wHeader c8wRows "cat1",
   rfl,
   claim_c8_profile_filter.2.2.1 c8wHeader c8wRows c8wLoadedAll rfl,
   rfl,
   claim_c8_profile_filter.2.2.2 c8wHeadersX c8wRowsX c8wLoadedX rfl⟩

/-- C9: with zero verdicts, the summary returns the fixed no-results
message instead of dividing by zero; with any non-empty verdict list the
guard takes the other branch (whose success-rate division is evaluated
under a proof that the total is positive, see `validationSummaryBody`). -/
theorem claim_c9_summary_guard :
    get_validation_summary [] = "No validation results available" ∧
    ∀ vs : List Verdict, vs ≠ [] →
      get_validation_summary vs ≠ "No validation results available" := by
  constructor
  · rfl
  · intro vs hne
    have hE : ¬(vs.isEmpty = true) := by
      cases vs with
      | nil => exact absurd rfl hne
      | cons a l => simp
    rw [get_validation_summary, dif_neg hE]
    exact validationSummaryBody_ne_msg vs _

/-- C9 witness: the theorem's non-empty half applied to a concrete
one-verdict list. -/
theorem claim_c9_summary_guard_witness :
    (([c9wVerdict] : List Verdict) ≠ []) ∧
    get_validation_summary [c9wVerdict] ≠ "No validation results available" :=
  ⟨by decide, claim_c9_summary_guard.2 [c9wVerdict] (by decide)⟩

/-- C10: there is a non-empty rule list and a well-formed report on which
validate raises instead of returning: the rule identifier
`"xccdf_rule_O'Brien"` (quote = codepoint 39) is interpolated verbatim
into the XPath predicate, and the element search fails with the XPath
SyntaxError rather than classifying the rule as NOT FOUND. -/
theorem claim_c10_quote_injection :
    hasSingleQuote c10RuleId = true ∧
    validate_xccdf_report [⟨1, c10RuleId, "COMPLIANT", "", ""⟩]
      (.wellFormed [⟨"other_rule", some (some "pass")⟩]) = .error .syntaxError :=
  ⟨rfl, rfl⟩
